import Mathlib

/-
  Verification development for the FacialDermaAi account-lifecycle backend.

  Shallow embedding of the identity-verification state machine:
  - app/auth/service.py   (hashing, token issue, verify_email_token, create_user,
                           update_user_password)
  - app/auth/routes.py    (verify_email_otp, resend_verification_email, signup,
                           login, forgot_password, verify_otp, reset_password)
  - app/admin/service.py  (verify_dermatologist_service)
  - app/deps/auth.py      (get_current_user)

  Modelling conventions:
  - Times are natural numbers (seconds since epoch); `now` is passed explicitly.
  - A Mongo user document is a `User` structure; keys that may be absent are
    `Option` fields, counters default to 0 as `user.get(key, 0)` does.
  - The snake_case key `is_verified` (written by the email-verification flow and
    read by login/resend) and the camelCase key `isVerified` (written by the
    admin review service) are distinct Mongo keys and are modelled as distinct
    fields.
  - The dermatologist_verifications collection is a `List VerificationRecord`;
    `find_one` returns the first match and `update_one` updates the first match,
    matching Mongo natural-order semantics.
  - The bcrypt hasher is the external collaborator of spec section 6; it is
    modelled as an injective tagging function with `verify` as hash comparison.
  - Random token/OTP generation is modelled by passing the generated values as
    explicit arguments.
-/

namespace FacialDerma

/-- Config value VERIFICATION_TOKEN_EXPIRY_MINUTES (default 15, app/config.py). -/
def verificationTokenExpiryMinutes : Nat := 15

/-- Config value JWT_EXPIRATION_DAYS (default 7, app/config.py). -/
def jwtExpirationDays : Nat := 7

/-- Model of the bcrypt collaborator hash function (app/auth/service.py
hash_password); injective tagging stands in for the digest. -/
def hash_password (password : String) : String := "bcrypt$" ++ password

/-- Model of pwd_context.verify (app/auth/service.py verify_password): a plain
password verifies against a stored hash exactly when hashing it reproduces it. -/
def verify_password (plain hashed : String) : Bool := hashed == hash_password plain

/-- Model of Python str.lower, applied code point by code point. -/
def str_lower (s : String) : String := String.mk (s.data.map Char.toLower)

/-- Model of Python str.strip: drop leading and trailing whitespace. -/
def str_strip (s : String) : String :=
  String.mk (((s.data.dropWhile Char.isWhitespace).reverse.dropWhile
    Char.isWhitespace).reverse)

/-- One user document of the users collection. Field names follow the Mongo keys
used by the source; `is_verified` (snake_case) and `isVerified` (camelCase) are
two different keys in the store. -/
structure User where
  id : Nat
  role : String
  username : String
  email : String
  name : Option String := none
  password : String
  is_verified : Bool := false
  isVerified : Option Bool := none
  verifiedAt : Option Nat := none
  is_approved : Option String := none
  isSuspended : Bool := false
  verification_token : Option String := none
  token_expiry : Option Nat := none
  email_otp : Option String := none
  email_otp_expires : Option Nat := none
  email_otp_attempts : Nat := 0
  email_otp_lock_until : Option Nat := none
  resend_attempts : Nat := 0
  last_resend_at : Option Nat := none
  resend_lock_until : Option Nat := none
  resetOtp : Option String := none
  resetOtpExpires : Option Nat := none
  license : Option String := none
  deriving Repr, DecidableEq

/-- One document of the dermatologist_verifications collection. -/
structure VerificationRecord where
  dermatologistId : Nat
  status : String
  license : Option String := none
  reviewComments : Option String := none
  submittedAt : Nat := 0
  reviewedAt : Option Nat := none
  reviewedBy : Option Nat := none
  deriving Repr, DecidableEq

/-- JWT payload issued at login (app/auth/service.py create_access_token);
the token is modelled as its signed claims. -/
structure AccessToken where
  id : Nat
  role : String
  exp : Nat
  deriving Repr, DecidableEq

/-- create_access_token (app/auth/service.py): claims id and role with expiry
now + JWT_EXPIRATION_DAYS. -/
def create_access_token (now : Nat) (id : Nat) (role : String) : AccessToken :=
  { id := id, role := role, exp := now + jwtExpirationDays * 86400 }

/-- decode_token (app/auth/service.py): a token decodes to its claims while
unexpired; jose rejects a token whose exp is not in the future. -/
def decode_token (now : Nat) (tok : AccessToken) : Option AccessToken :=
  if tok.exp ≤ now then none else some tok

/-- Outcome of the OTP email-verification route. -/
inductive VerifyOutcome where
  | locked
  | invalidOtp
  | expired
  | ok (message : String)
  deriving Repr, DecidableEq

/-- Success branch of verify_email_otp (app/auth/routes.py lines 86-99): mark
verified, zero the attempt counter, and unset verification_token, token_expiry,
email_otp, email_otp_expires and email_otp_lock_until in one update. -/
def otp_success (u : User) : VerifyOutcome × User :=
  (.ok (if u.role == "dermatologist"
        then "Email verified successfully! Your account is pending admin approval. You will be notified once approved."
        else "Email verified successfully!"),
   { u with is_verified := true, email_otp_attempts := 0,
            verification_token := none, token_expiry := none,
            email_otp := none, email_otp_expires := none,
            email_otp_lock_until := none })

/-- Body of verify_email_otp after the lock gate (app/auth/routes.py lines
70-99): a non-matching OTP increments email_otp_attempts and, when the new
count reaches 5, sets a 15-minute lock in the same update; a matching but
expired OTP is cleared with the counter reset; otherwise the success update
runs. -/
def otp_check (now : Nat) (otp : String) (u : User) : VerifyOutcome × User :=
  if u.email_otp = some otp then
    match u.email_otp_expires with
    | some e => if e < now
        then (.expired, { u with email_otp := none, email_otp_expires := none,
                                 email_otp_attempts := 0 })
        else otp_success u
    | none => otp_success u
  else
    (.invalidOtp,
     { u with email_otp_attempts := u.email_otp_attempts + 1,
              email_otp_lock_until :=
                if 5 ≤ u.email_otp_attempts + 1 then some (now + 15 * 60)
                else u.email_otp_lock_until })

/-- verify_email_otp route (app/auth/routes.py lines 54-99), per resolved user:
if email_otp_lock_until is in the future the call fails locked without touching
the document; otherwise the OTP is checked. -/
def verify_email_otp (now : Nat) (otp : String) (u : User) : VerifyOutcome × User :=
  match u.email_otp_lock_until with
  | some t => if now < t then (.locked, u) else otp_check now otp u
  | none => otp_check now otp u

/-- Outcome of token-based email verification. -/
inductive TokenVerifyResult where
  | notFound
  | expired
  | alreadyVerified
  | ok (role : String)
  deriving Repr, DecidableEq

/-- Already-verified gate and success update of verify_email_token
(app/auth/service.py lines 142-155): the single update sets is_verified and
unsets only verification_token and token_expiry. -/
def token_check (u : User) : TokenVerifyResult × User :=
  if u.is_verified then (.alreadyVerified, u)
  else (.ok u.role,
        { u with is_verified := true, verification_token := none,
                 token_expiry := none })

/-- verify_email_token (app/auth/service.py lines 128-155), per user: the store
lookup is by verification_token, so a non-matching token is notFound; an
expired token fails without being consumed. -/
def verify_email_token (now : Nat) (token : String) (u : User) :
    TokenVerifyResult × User :=
  if u.verification_token = some token then
    match u.token_expiry with
    | some e => if e < now then (.expired, u) else token_check u
    | none => token_check u
  else (.notFound, u)

/-- Outcome of the resend-verification route; tooManyRequests carries the
number of minutes reported in the 429 message. -/
inductive ResendOutcome where
  | alreadyVerifiedPending
  | alreadyVerifiedRejected
  | alreadyVerified
  | tooManyRequests (reportedMinutes : Nat)
  | ok (remaining : Nat)
  deriving Repr, DecidableEq

/-- Lazy reset of the resend counter (app/auth/routes.py lines 162-167): the
stored count is treated as 0 when the last resend lies more than 900 seconds
in the past. -/
def effective_resend_attempts (now : Nat) (u : User) : Nat :=
  match u.last_resend_at with
  | some lr => if 900 < now - lr then 0 else u.resend_attempts
  | none => u.resend_attempts

/-- Counter gate and re-issue step of resend_verification_email
(app/auth/routes.py lines 169-220): a (possibly reset) count of at least 3
sets resend_lock_until = now + 15m and fails; otherwise fresh credentials are
stored, the OTP attempt counter and both locks are cleared, and the message
reports 3 - (attempts + 1) remaining resends. -/
def resend_after_lock (now : Nat) (newToken newOtp : String) (u : User) :
    ResendOutcome × User :=
  let attempts := effective_resend_attempts now u
  if 3 ≤ attempts then
    (.tooManyRequests 15, { u with resend_lock_until := some (now + 15 * 60) })
  else
    (.ok (3 - (attempts + 1)),
     { u with verification_token := some newToken,
              token_expiry := some (now + 15 * 60),
              email_otp := some newOtp,
              email_otp_expires := some (now + 10 * 60),
              email_otp_attempts := 0,
              resend_attempts := attempts + 1,
              last_resend_at := some now,
              email_otp_lock_until := none,
              resend_lock_until := none })

/-- resend_verification_email route (app/auth/routes.py lines 120-220), per
resolved user: verified users fail alreadyVerified (with a message refined by
the dermatologist is_approved field); an active resend lock fails with the
remaining wait computed as int(seconds / 60) + 1. -/
def resend_verification (now : Nat) (newToken newOtp : String) (u : User) :
    ResendOutcome × User :=
  if u.is_verified then
    (if u.role == "dermatologist" && u.is_approved == some "pending" then
       .alreadyVerifiedPending
     else if u.role == "dermatologist" && u.is_approved == some "rejected" then
       .alreadyVerifiedRejected
     else .alreadyVerified, u)
  else
    match u.resend_lock_until with
    | some t =>
        if now < t then (.tooManyRequests ((t - now) / 60 + 1), u)
        else resend_after_lock now newToken newOtp u
    | none => resend_after_lock now newToken newOtp u

/-- Outcome of the login route. -/
inductive LoginResult where
  | invalidPassword
  | roleMismatch (actual : String)
  | emailNotVerified
  | recordNotFound
  | pendingApproval
  | rejected (reason : String)
  | success (token : AccessToken) (isSuspended : Bool)
  deriving Repr, DecidableEq

/-- find_one on the dermatologist_verifications collection by dermatologistId:
the first matching document in natural order. -/
def find_verification (recs : List VerificationRecord) (dermId : Nat) :
    Option VerificationRecord :=
  recs.find? (fun v => v.dermatologistId == dermId)

/-- login route (app/auth/routes.py lines 423-537), per resolved user: password,
then optional requested-role match, then a suspension check that deliberately
passes (the suspended flag is only echoed in the response), then the snake_case
is_verified gate, then for dermatologists the verification-record gate; success
issues a JWT bound to (id, role) and returns the isSuspended flag. -/
def login (now : Nat) (pw : String) (reqRole : Option String)
    (recs : List VerificationRecord) (u : User) : LoginResult :=
  if verify_password pw u.password then
    if (match reqRole with | some r => u.role != r | none => false) then
      .roleMismatch u.role
    else if u.is_verified then
      if u.role == "dermatologist" then
        match find_verification recs u.id with
        | none => .recordNotFound
        | some v =>
            if v.status == "pending" then .pendingApproval
            else if v.status == "rejected" then
              .rejected (v.reviewComments.getD "No reason provided")
            else .success (create_access_token now u.id u.role) u.isSuspended
      else .success (create_access_token now u.id u.role) u.isSuspended
    else .emailNotVerified
  else .invalidPassword

/-- Admin review request body (app/admin/schemas.py
DermatologistVerificationRequest). -/
structure ReviewData where
  status : String
  reviewComments : Option String := none
  deriving Repr, DecidableEq

/-- Python truthiness of data.get("reviewComments"): present and non-empty. -/
def truthyStr : Option String → Bool
  | some s => s != ""
  | none => false

/-- update_one({dermatologistId, status: "pending"}, {$set f}) on the
verifications collection: rewrites the first pending record of that
dermatologist and reports whether a document was modified. -/
def update_one_pending (dermId : Nat) (f : VerificationRecord → VerificationRecord) :
    List VerificationRecord → List VerificationRecord × Bool
  | [] => ([], false)
  | r :: rest =>
      if r.dermatologistId == dermId && r.status == "pending" then
        (f r :: rest, true)
      else
        let res := update_one_pending dermId f rest
        (r :: res.1, res.2)

/-- verify_dermatologist_service (app/admin/service.py lines 77-172), acting on
the verifications collection and the target user document (u.id is the
dermatologist_id of the route). The $set on a matched pending record writes
status, reviewedBy, reviewedAt and, only when truthy, reviewComments. When no
pending record was modified, an "approved" action directly sets the camelCase
isVerified flag on the user and leaves the collection unchanged, while a
"rejected" action inserts a fresh rejected record and clears the camelCase
flag. When a pending record was modified, the user camelCase flag is set or
cleared per the decision. -/
def verify_dermatologist_service (now reviewerId : Nat) (data : ReviewData)
    (recs : List VerificationRecord) (u : User) :
    List VerificationRecord × User :=
  let upd := fun (r : VerificationRecord) =>
    { r with status := data.status, reviewedBy := some reviewerId,
             reviewedAt := some now,
             reviewComments := if truthyStr data.reviewComments
                               then data.reviewComments else r.reviewComments }
  let res := update_one_pending u.id upd recs
  if res.2 = false then
    if data.status == "approved" then
      (res.1, { u with isVerified := some true, verifiedAt := some now })
    else if data.status == "rejected" then
      (res.1 ++ [{ dermatologistId := u.id, status := "rejected",
                   reviewComments := some (data.reviewComments.getD ""),
                   submittedAt := now, reviewedAt := some now,
                   reviewedBy := some reviewerId }],
       { u with isVerified := some false })
    else (res.1, u)
  else
    if data.status == "approved" then
      (res.1, { u with isVerified := some true, verifiedAt := some now })
    else if data.status == "rejected" then
      (res.1, { u with isVerified := some false })
    else (res.1, u)

/-- Outcome of the middleware authentication dependency. -/
inductive AuthCheck where
  | invalidToken
  | userNotFound
  | suspended
  | ok (u : User)
  deriving Repr, DecidableEq

/-- get_current_user (app/deps/auth.py lines 9-57): decode the bearer token,
re-read the user by id from the store, and reject with suspended when the
freshly read isSuspended flag is set. -/
def get_current_user (now : Nat) (findById : Nat → Option User)
    (tok : AccessToken) : AuthCheck :=
  match decode_token now tok with
  | none => .invalidToken
  | some payload =>
      match findById payload.id with
      | none => .userNotFound
      | some u => if u.isSuspended then .suspended else .ok u

/-- Outcome of the password-reset routes; validationError is the 422 the
pydantic request schema raises before the handler body runs. -/
inductive ResetVerifyOutcome where
  | validationError
  | invalidOtp
  | expired
  | ok
  deriving Repr, DecidableEq

/-- forgot_password route (app/auth/routes.py lines 556-582), per resolved
user: store a fresh reset OTP expiring in 10 minutes, overwriting any
previous one. -/
def forgot_password (now : Nat) (otp : String) (u : User) : User :=
  { u with resetOtp := some otp, resetOtpExpires := some (now + 10 * 60) }

/-- The find_one({email, resetOtp}) filter shared by verify_otp and
reset_password: the request email, lowercased, must equal the stored email and
the presented OTP must equal the stored reset OTP. -/
def reset_otp_matches (em otp : String) (u : User) : Prop :=
  u.email = str_lower em ∧ u.resetOtp = some otp

instance (em otp : String) (u : User) : Decidable (reset_otp_matches em otp u) := by
  unfold reset_otp_matches; infer_instance

/-- verify_otp route (app/auth/routes.py lines 605-634), per user: a failed
filter match is invalidOtp; an expired reset OTP is cleared on the failing
check; a valid one changes nothing. -/
def verify_otp (now : Nat) (em otp : String) (u : User) :
    ResetVerifyOutcome × User :=
  if reset_otp_matches em otp u then
    match u.resetOtpExpires with
    | some e => if e < now
        then (.expired, { u with resetOtp := none, resetOtpExpires := none })
        else (.ok, u)
    | none => (.ok, u)
  else (.invalidOtp, u)

/-- reset_password route (app/auth/routes.py lines 658-695), per user. The
ResetPasswordRequest schema (app/auth/schemas.py lines 108-113) rejects a
newPassword shorter than 6 characters with a 422 before the handler body
runs, leaving the document untouched; past that gate the route re-validates
the OTP with the same rules as verify_otp, then stores the new password hash
(update_user_password) and clears both reset fields. -/
def reset_password (now : Nat) (em otp newPassword : String) (u : User) :
    ResetVerifyOutcome × User :=
  if newPassword.length < 6 then (.validationError, u)
  else if reset_otp_matches em otp u then
    match u.resetOtpExpires with
    | some e => if e < now
        then (.expired, { u with resetOtp := none, resetOtpExpires := none })
        else (.ok, { u with password := hash_password newPassword,
                            resetOtp := none, resetOtpExpires := none })
    | none => (.ok, { u with password := hash_password newPassword,
                             resetOtp := none, resetOtpExpires := none })
  else (.invalidOtp, u)

/-- Signup request body (app/auth/schemas.py SignupRequest). -/
structure SignupRequest where
  role : String
  name : Option String := none
  username : String
  email : String
  password : String
  license : Option String := none
  deriving Repr, DecidableEq

/-- Pydantic validation of SignupRequest (app/auth/schemas.py lines 7-50): role
is the literal patient or dermatologist, the username is non-empty without
whitespace, the password is non-empty, a provided license is non-blank after
stripping, and a dermatologist must provide a license. -/
def validate_signup (r : SignupRequest) : Bool :=
  (r.role == "patient" || r.role == "dermatologist") &&
  (r.username != "" && r.username.data.all (fun c => !c.isWhitespace)) &&
  (r.password != "") &&
  (match r.license with
   | some l => str_strip l != ""
   | none => r.role != "dermatologist")

/-- create_user (app/auth/service.py lines 79-125): the inserted user document,
unverified, holding the fresh verification token (15-minute expiry) and email
OTP (max(10, 15)-minute expiry) with a zero attempt counter; the license is
stored for dermatologists only. -/
def create_user (now newId : Nat) (role : String) (name : Option String)
    (username email password : String) (license : Option String)
    (tok otp : String) : User :=
  { id := newId, role := role, username := username, email := str_lower email,
    name := name,
    password := hash_password password,
    is_verified := false,
    verification_token := some tok,
    token_expiry := some (now + verificationTokenExpiryMinutes * 60),
    email_otp := some otp,
    email_otp_expires := some (now + max 10 verificationTokenExpiryMinutes * 60),
    email_otp_attempts := 0,
    license := if role == "dermatologist" then license else none }

/-- Modelled from the spec: the mailer-module variant that the routes call is
missing from src (app/admin/service.py imports send_dermatologist_approval_email
and friends from app/email/mailer.py, where they do not exist, and signup and
resend call send_verification_email with four arguments against a three-
parameter definition). Per spec sections 5 and 6, the Mail Sender collaborator
is fire-and-forget: deliveries are best-effort and a delivery failure is
logged, never propagated to the triggering operation, so the call returns unit
whatever the delivery outcome. -/
def send_verification_email_model (deliveryOk : Bool) : Unit :=
  let _ := deliveryOk
  ()

/-- Success message of the signup route (app/auth/routes.py lines 332-334),
which differs for dermatologists. -/
def signup_message (role : String) : String :=
  if role == "dermatologist" then
    "Registration successful! Please verify your email. Your dermatologist account will be activated after admin approval."
  else
    "Registration successful! Please check your email to verify your account."

/-- Outcome of the signup route; created carries the HTTP status code and the
success message. -/
inductive SignupOutcome where
  | validationError
  | emailTaken
  | usernameTaken
  | licenseTaken
  | created (statusCode : Nat) (message : String)
  deriving Repr, DecidableEq

/-- signup route (app/auth/routes.py lines 244-336): after validation, reject a
taken email, username, or (for dermatologists) license; otherwise insert the
user, for dermatologists insert a pending verification record, fire the
verification email best-effort, and answer 201 with a role-specific message. -/
def signup (now newId : Nat) (req : SignupRequest) (tok otp : String)
    (mailOk : Bool) (users : List User) (recs : List VerificationRecord) :
    SignupOutcome × List User × List VerificationRecord :=
  if !(validate_signup req) then (.validationError, users, recs)
  else if users.any (fun u => u.email == str_lower req.email) then
    (.emailTaken, users, recs)
  else if users.any (fun u => u.username == req.username) then
    (.usernameTaken, users, recs)
  else if req.role == "dermatologist" &&
          users.any (fun u => u.license == req.license &&
                              u.role == "dermatologist") then
    (.licenseTaken, users, recs)
  else
    let user := create_user now newId req.role req.name req.username req.email
                  req.password req.license tok otp
    let recs1 := if req.role == "dermatologist" then
                   recs ++ [{ dermatologistId := newId, status := "pending",
                              license := req.license, submittedAt := now }]
                 else recs
    let _ := send_verification_email_model mailOk
    (.created 201 (signup_message req.role), users ++ [user], recs1)

/- ------------------------------------------------------------------ -/
/- Theorems                                                            -/
/- ------------------------------------------------------------------ -/

/-- C4: for every unverified account, a verifyByOtp call with a non-matching
OTP while no lock is active increments emailOtpAttempts by one and fails with
InvalidOtp, and when the incremented count reaches 5 the same update sets
emailOtpLockUntil to now + 15 minutes; while emailOtpLockUntil is in the
future every verifyByOtp call, even one presenting the correct OTP, fails
with Locked and leaves the document (and so the counter) unchanged. -/
theorem c4_otp_attempts_and_lockout :
    ∀ (now : Nat) (otp : String) (u : User),
      ((∀ t, u.email_otp_lock_until = some t → t ≤ now) →
        u.email_otp ≠ some otp →
        (verify_email_otp now otp u).1 = .invalidOtp ∧
        (verify_email_otp now otp u).2.email_otp_attempts
          = u.email_otp_attempts + 1 ∧
        (5 ≤ u.email_otp_attempts + 1 →
          (verify_email_otp now otp u).2.email_otp_lock_until
            = some (now + 15 * 60)))
      ∧
      (∀ t, u.email_otp_lock_until = some t → now < t →
        verify_email_otp now otp u = (.locked, u)) := by
  intro now otp u
  constructor
  · intro hlock hotp
    have hstep : verify_email_otp now otp u = otp_check now otp u := by
      unfold verify_email_otp
      cases h : u.email_otp_lock_until with
      | none => rfl
      | some t => simp [Nat.not_lt.mpr (hlock t h)]
    rw [hstep]
    unfold otp_check
    rw [if_neg hotp]
    refine ⟨rfl, rfl, ?_⟩
    intro h5
    show (if 5 ≤ u.email_otp_attempts + 1 then some (now + 15 * 60)
          else u.email_otp_lock_until) = some (now + 15 * 60)
    rw [if_pos h5]
  · intro t ht hlt
    unfold verify_email_otp
    rw [ht]
    simp [hlt]

/-- Concrete account for the C4 witness: four failed OTP attempts already
recorded, no active lock, correct code 111111. -/
def c4User : User :=
  { id := 4, role := "patient", username := "u4", email := "c4@x.y",
    password := hash_password "pw", is_verified := false,
    email_otp := some "111111", email_otp_expires := some 1000,
    email_otp_attempts := 4 }

theorem c4_otp_attempts_witness :
    (verify_email_otp 0 "000000" c4User).1 = .invalidOtp ∧
    (verify_email_otp 0 "000000" c4User).2.email_otp_attempts
      = c4User.email_otp_attempts + 1 ∧
    (verify_email_otp 0 "000000" c4User).2.email_otp_lock_until
      = some (0 + 15 * 60) ∧
    verify_email_otp 100 "111111" ((verify_email_otp 0 "000000" c4User).2)
      = (.locked, (verify_email_otp 0 "000000" c4User).2) := by
  have h1 := (c4_otp_attempts_and_lockout 0 "000000" c4User).1
    (by intro t ht; simp [c4User] at ht) (by simp [c4User])
  have h2 := (c4_otp_attempts_and_lockout 100 "111111"
    ((verify_email_otp 0 "000000" c4User).2)).2 (0 + 15 * 60)
    (by decide) (by decide)
  exact ⟨h1.1, h1.2.1, h1.2.2 (by decide), h2⟩

/-- C8: for every unverified account holding a matching unexpired verification
token, verifyByToken succeeds even when emailOtpAttempts has reached 5 and
emailOtpLockUntil is in the future: the OTP lockout never blocks the token
channel. -/
theorem c8_token_verify_ignores_otp_lock :
    ∀ (now : Nat) (token : String) (u : User) (lockT : Nat),
      u.verification_token = some token →
      (∀ e, u.token_expiry = some e → ¬ e < now) →
      u.is_verified = false →
      u.email_otp_attempts = 5 →
      u.email_otp_lock_until = some lockT →
      now < lockT →
      (verify_email_token now token u).1 = .ok u.role ∧
      (verify_email_token now token u).2.is_verified = true := by
  intro now token u lockT htok hexp hver _ _ _
  unfold verify_email_token token_check
  rw [if_pos htok]
  cases h : u.token_expiry with
  | none => simp [hver]
  | some e => simp [hexp e h, hver]

/-- Concrete account for the C8 witness: OTP channel locked until time 2000,
token channel intact. -/
def c8User : User :=
  { id := 8, role := "dermatologist", username := "u8", email := "c8@x.y",
    password := hash_password "pw", is_verified := false,
    verification_token := some "tkn8", token_expiry := some 1000,
    email_otp := some "222222", email_otp_expires := some 1000,
    email_otp_attempts := 5, email_otp_lock_until := some 2000 }

theorem c8_token_verify_witness :
    (verify_email_token 500 "tkn8" c8User).1 = .ok "dermatologist" ∧
    (verify_email_token 500 "tkn8" c8User).2.is_verified = true :=
  c8_token_verify_ignores_otp_lock 500 "tkn8" c8User 2000
    (by decide) (by decide) (by decide) (by decide) (by decide) (by decide)

/-- Concrete account refuting C3 as stated: token verification succeeds yet
the stored OTP, its expiry, the attempt counter and the OTP lock survive the
update. -/
def c3User : User :=
  { id := 3, role := "patient", username := "u3", email := "c3@x.y",
    password := hash_password "pw", is_verified := false,
    verification_token := some "tkn3", token_expiry := some 100,
    email_otp := some "123456", email_otp_expires := some 100,
    email_otp_attempts := 2, email_otp_lock_until := some 999 }

theorem c3_counterexample :
    (verify_email_token 50 "tkn3" c3User).1 = .ok "patient" ∧
    (verify_email_token 50 "tkn3" c3User).2.email_otp = some "123456" ∧
    (verify_email_token 50 "tkn3" c3User).2.email_otp_expires = some 100 ∧
    (verify_email_token 50 "tkn3" c3User).2.email_otp_attempts = 2 ∧
    (verify_email_token 50 "tkn3" c3User).2.email_otp_lock_until = some 999 := by
  decide

/-- C3 amended: for every unverified account presenting a matching, unexpired
verification token, verifyByToken succeeds and its single update sets
isVerified (snake_case is_verified) to true and clears the token and the token
expiry only; the OTP fields (emailOtp, emailOtpExpires, emailOtpAttempts) and
the lock field (emailOtpLockUntil) are left untouched, so the stored OTP
secret survives the update. -/
theorem c3_token_verify_clears_only_token_fields :
    ∀ (now : Nat) (token : String) (u : User),
      u.verification_token = some token →
      (∀ e, u.token_expiry = some e → ¬ e < now) →
      u.is_verified = false →
      verify_email_token now token u =
        (.ok u.role,
         { u with is_verified := true, verification_token := none,
                  token_expiry := none }) := by
  intro now token u htok hexp hver
  unfold verify_email_token token_check
  rw [if_pos htok]
  cases h : u.token_expiry with
  | none => simp [hver]
  | some e => simp [hexp e h, hver]

theorem c3_token_verify_witness :
    verify_email_token 50 "tkn3" c3User =
      (.ok "patient",
       { c3User with is_verified := true, verification_token := none,
                     token_expiry := none }) :=
  c3_token_verify_clears_only_token_fields 50 "tkn3" c3User
    (by decide) (by decide) (by decide)

/-- Minutes rounded up, the figure C9 says the 429 message reports. -/
def ceil_minutes (s : Nat) : Nat := (s + 59) / 60

/-- Concrete account refuting C9 as stated: the resend lock expires in exactly
60 seconds, so ceiling(60 / 60) = 1, yet the code reports 60 / 60 + 1 = 2. -/
def c9User : User :=
  { id := 9, role := "patient", username := "u9", email := "c9@x.y",
    password := hash_password "pw", is_verified := false,
    resend_lock_until := some 1060 }

theorem c9_counterexample :
    (resend_verification 1000 "t" "o" c9User).1 = .tooManyRequests 2 ∧
    ceil_minutes (1060 - 1000) = 1 ∧
    (ResendOutcome.tooManyRequests 2
      ≠ .tooManyRequests (ceil_minutes (1060 - 1000))) := by
  decide

/-- C9 amended: for every unverified account whose resendLockUntil lies s
seconds in the future, resendVerification fails with TooManyRequests without
touching the document, and the message reports s / 60 + 1 minutes: that equals
ceiling(s / 60) whenever s is not an exact multiple of 60, and exceeds it by
one when it is. -/
theorem c9_resend_lock_minutes_reported :
    ∀ (now t : Nat) (tok otp : String) (u : User),
      u.is_verified = false →
      u.resend_lock_until = some t →
      now < t →
      resend_verification now tok otp u
        = (.tooManyRequests ((t - now) / 60 + 1), u) ∧
      ((t - now) % 60 ≠ 0 → (t - now) / 60 + 1 = ceil_minutes (t - now)) ∧
      ((t - now) % 60 = 0 → (t - now) / 60 + 1 = ceil_minutes (t - now) + 1) := by
  intro now t tok otp u hver hlock hlt
  refine ⟨?_, ?_, ?_⟩
  · unfold resend_verification
    rw [hver, hlock]
    simp [hlt]
  · intro hmod
    unfold ceil_minutes
    omega
  · intro hmod
    unfold ceil_minutes
    omega

theorem c9_resend_lock_witness :
    resend_verification 1000 "t" "o" c9User
      = (.tooManyRequests ((1060 - 1000) / 60 + 1), c9User) ∧
    ((1060 - 1000) % 60 = 0 →
      (1060 - 1000) / 60 + 1 = ceil_minutes (1060 - 1000) + 1) := by
  have h := c9_resend_lock_minutes_reported 1000 1060 "t" "o" c9User
    (by decide) (by decide) (by decide)
  exact ⟨h.1, h.2.2⟩

/-- Fresh unverified account for the C5 resend scenario. -/
def c5User : User :=
  { id := 5, role := "patient", username := "u5", email := "c5@x.y",
    password := hash_password "pw", is_verified := false,
    verification_token := some "tk0", token_expiry := some 900,
    email_otp := some "000001", email_otp_expires := some 600 }

/-- State after the first resend of the C5 scenario (time 0). -/
def c5Step1 : User := (resend_verification 0 "tk1" "o1" c5User).2

/-- State after the second resend of the C5 scenario (time 100). -/
def c5Step2 : User := (resend_verification 100 "tk2" "o2" c5Step1).2

/-- State after the third resend of the C5 scenario (time 200). -/
def c5Step3 : User := (resend_verification 200 "tk3" "o3" c5Step2).2

/-- C5: resendVerification treats the stored resendAttempts as 0 when
lastResendAt lies more than 15 minutes in the past (first conjunct: the call
behaves exactly as on the document with the counter zeroed); when the possibly
reset count is at least 3 it sets resendLockUntil to now + 15 minutes and
fails with TooManyRequests (second conjunct); in particular the 4th resend
call inside a 15-minute window fails with TooManyRequests (third conjunct,
calls at times 0, 100, 200, 300 seconds). -/
theorem c5_resend_reset_and_limit :
    (∀ (now : Nat) (tok otp : String) (u : User) (lr : Nat),
       u.is_verified = false →
       (∀ t, u.resend_lock_until = some t → t ≤ now) →
       u.last_resend_at = some lr → 900 < now - lr →
       resend_verification now tok otp u =
         resend_verification now tok otp { u with resend_attempts := 0 }) ∧
    (∀ (now : Nat) (tok otp : String) (u : User),
       u.is_verified = false →
       (∀ t, u.resend_lock_until = some t → t ≤ now) →
       3 ≤ effective_resend_attempts now u →
       resend_verification now tok otp u =
         (.tooManyRequests 15,
          { u with resend_lock_until := some (now + 15 * 60) })) ∧
    ((resend_verification 0 "tk1" "o1" c5User).1 = .ok 2 ∧
     (resend_verification 100 "tk2" "o2" c5Step1).1 = .ok 1 ∧
     (resend_verification 200 "tk3" "o3" c5Step2).1 = .ok 0 ∧
     (resend_verification 300 "tk4" "o4" c5Step3).1 = .tooManyRequests 15 ∧
     c5Step3.resend_attempts = 3 ∧
     (resend_verification 300 "tk4" "o4" c5Step3).2.resend_lock_until
       = some (300 + 15 * 60)) := by
  refine ⟨?_, ?_, ?_⟩
  · intro now tok otp u lr hver hlock hlr hgt
    obtain ⟨i, ro, un, em, nm, pw, iv, ivc, va, ia, su, vt, te, eo, ee, ea,
      el, ra, la, rl, ro2, re, li⟩ := u
    simp only at hver hlr
    subst hver
    subst hlr
    cases rl with
    | none =>
        simp only [resend_verification, resend_after_lock,
          effective_resend_attempts]
        simp [hgt]
    | some t =>
        have ht : t ≤ now := hlock t rfl
        simp only [resend_verification, resend_after_lock,
          effective_resend_attempts]
        simp [Nat.not_lt.mpr ht, hgt]
  · intro now tok otp u hver hlock hatt
    have hstep : resend_verification now tok otp u
        = resend_after_lock now tok otp u := by
      unfold resend_verification
      rw [hver]
      cases h : u.resend_lock_until with
      | none => rfl
      | some t => simp [Nat.not_lt.mpr (hlock t h)]
    rw [hstep]
    unfold resend_after_lock
    simp [hatt]
  · refine ⟨by decide, by decide, by decide, by decide, by decide, by decide⟩

theorem c5_resend_witness :
    resend_verification 2000 "tk" "o" c5Step3 =
      resend_verification 2000 "tk" "o" { c5Step3 with resend_attempts := 0 } ∧
    resend_verification 300 "tk4" "o4" c5Step3 =
      (.tooManyRequests 15,
       { c5Step3 with resend_lock_until := some (300 + 15 * 60) }) := by
  have h1 := c5_resend_reset_and_limit.1 2000 "tk" "o" c5Step3 200
    (by decide)
    (by intro t ht
        rw [show c5Step3.resend_lock_until = none from by decide] at ht
        cases ht)
    (by decide) (by decide)
  have h2 := c5_resend_reset_and_limit.2.1 300 "tk4" "o4" c5Step3
    (by decide)
    (by intro t ht
        rw [show c5Step3.resend_lock_until = none from by decide] at ht
        cases ht)
    (by decide)
  exact ⟨h1, h2⟩

/-- C6: with the same email and OTP, for new passwords that pass the
request-schema minimum length of 6, requestReset then verifyResetOtp then
confirmReset succeeds exactly once: the successful confirmReset stores the new
password hash and clears resetOtp and resetOtpExpires, and a second
confirmReset presenting the same now-cleared OTP fails with InvalidOtp and
leaves the document, in particular the password, unchanged. -/
theorem c6_reset_round_trip_once :
    ∀ (u : User) (em otp newPw newPw2 : String) (n1 n2 n3 n4 : Nat),
      str_lower em = u.email →
      6 ≤ newPw.length →
      6 ≤ newPw2.length →
      n2 ≤ n1 + 10 * 60 →
      n3 ≤ n1 + 10 * 60 →
      (verify_otp n2 em otp (forgot_password n1 otp u)).1 = .ok ∧
      (verify_otp n2 em otp (forgot_password n1 otp u)).2
        = forgot_password n1 otp u ∧
      reset_password n3 em otp newPw (forgot_password n1 otp u)
        = (.ok, { u with password := hash_password newPw,
                         resetOtp := none, resetOtpExpires := none }) ∧
      reset_password n4 em otp newPw2
          (reset_password n3 em otp newPw (forgot_password n1 otp u)).2
        = (.invalidOtp,
           (reset_password n3 em otp newPw (forgot_password n1 otp u)).2) := by
  intro u em otp newPw newPw2 n1 n2 n3 n4 hem hlen hlen2 h2 h3
  obtain ⟨i, ro, un, em0, nm, pw, iv, ivc, va, ia, su, vt, te, eo, ee, ea,
    el, ra, la, rl, ro2, re, li⟩ := u
  simp only at hem
  subst hem
  have hn2 : ¬ (n1 + 10 * 60 < n2) := Nat.not_lt.mpr h2
  have hn3 : ¬ (n1 + 10 * 60 < n3) := Nat.not_lt.mpr h3
  have hl1 : ¬ (newPw.length < 6) := Nat.not_lt.mpr hlen
  have hl2 : ¬ (newPw2.length < 6) := Nat.not_lt.mpr hlen2
  refine ⟨?_, ?_, ?_, ?_⟩ <;>
    simp [verify_otp, forgot_password, reset_password, reset_otp_matches,
      hn2, hn3, hl1, hl2]

/-- Concrete account for the C6 witness. -/
def c6User : User :=
  { id := 6, role := "patient", username := "u6", email := "c6@x.y",
    password := hash_password "old", is_verified := true }

theorem c6_reset_round_trip_witness :
    (verify_otp 100 "c6@x.y" "424242" (forgot_password 0 "424242" c6User)).1
      = .ok ∧
    reset_password 200 "c6@x.y" "424242" "newpass1"
        (forgot_password 0 "424242" c6User)
      = (.ok, { c6User with password := hash_password "newpass1",
                            resetOtp := none, resetOtpExpires := none }) ∧
    reset_password 300 "c6@x.y" "424242" "newpass2"
        (reset_password 200 "c6@x.y" "424242" "newpass1"
          (forgot_password 0 "424242" c6User)).2
      = (.invalidOtp,
         (reset_password 200 "c6@x.y" "424242" "newpass1"
           (forgot_password 0 "424242" c6User)).2) := by
  have h := c6_reset_round_trip_once c6User "c6@x.y" "424242" "newpass1"
    "newpass2" 0 100 200 300 (by decide) (by decide) (by decide) (by decide)
    (by decide)
  exact ⟨h.1, h.2.2.1, h.2.2.2⟩

/-- C7: an account whose isSuspended flag is set but which passes password,
verification and approval gates is still issued a session token by login,
with the suspension flag echoed in the response; any later authenticated
request fails at the middleware gate, which re-reads the isSuspended flag
from the store (the lookup function) at request time. -/
theorem c7_suspended_login_then_middleware_rejects :
    ∀ (now : Nat) (pw : String) (recs : List VerificationRecord) (u : User),
      verify_password pw u.password = true →
      u.is_verified = true →
      u.isSuspended = true →
      (u.role = "dermatologist" →
        ∃ v, find_verification recs u.id = some v ∧ v.status = "approved") →
      login now pw none recs u
        = .success (create_access_token now u.id u.role) true ∧
      (∀ (now2 : Nat) (findById : Nat → Option User) (u2 : User),
        findById u.id = some u2 → u2.isSuspended = true →
        now2 < now + jwtExpirationDays * 86400 →
        get_current_user now2 findById (create_access_token now u.id u.role)
          = .suspended) := by
  intro now pw recs u hpw hver hsusp happr
  constructor
  · unfold login
    rw [hpw, hver]
    by_cases hrole : u.role = "dermatologist"
    · obtain ⟨v, hfind, hstat⟩ := happr hrole
      simp [hrole, hfind, hstat, hsusp]
    · simp [hrole, hsusp]
  · intro now2 findById u2 hfind hsusp2 hlt
    unfold get_current_user decode_token create_access_token
    have : ¬ (now + jwtExpirationDays * 86400 ≤ now2) := Nat.not_le.mpr hlt
    simp only [this, if_false]
    simp [hfind, hsusp2]

/-- Concrete suspended but fully eligible dermatologist for the C7 witness. -/
def c7User : User :=
  { id := 7, role := "dermatologist", username := "u7", email := "c7@x.y",
    password := hash_password "pw", is_verified := true, isSuspended := true,
    license := some "L7" }

/-- Approved verification record for the C7 witness. -/
def c7Rec : VerificationRecord :=
  { dermatologistId := 7, status := "approved", submittedAt := 0 }

theorem c7_suspended_witness :
    login 10 "pw" none [c7Rec] c7User
      = .success (create_access_token 10 7 "dermatologist") true ∧
    get_current_user 20 (fun i => if i = 7 then some c7User else none)
        (create_access_token 10 7 "dermatologist")
      = .suspended := by
  have h := c7_suspended_login_then_middleware_rejects 10 "pw" [c7Rec] c7User
    (by decide) (by decide) (by decide)
    (by intro _; exact ⟨c7Rec, by decide, by decide⟩)
  constructor
  · exact h.1
  · exact h.2 20 (fun i => if i = 7 then some c7User else none) c7User
      (by decide) (by decide) (by decide)

/-- The admin review service never touches the user fields the login gate
reads: snake_case is_verified, the stored password hash and the role survive
every branch of verify_dermatologist_service. -/
theorem verify_dermatologist_service_user_frame (now reviewerId : Nat)
    (data : ReviewData) (recs : List VerificationRecord) (u : User) :
    (verify_dermatologist_service now reviewerId data recs u).2.is_verified
      = u.is_verified ∧
    (verify_dermatologist_service now reviewerId data recs u).2.password
      = u.password ∧
    (verify_dermatologist_service now reviewerId data recs u).2.role
      = u.role := by
  unfold verify_dermatologist_service
  simp only
  repeat' split
  all_goals exact ⟨rfl, rfl, rfl⟩

/-- Dermatologist account with a pending approval record refuting C1 as
stated: after the admin rejects and then re-reviews with approved, the
approval record is still rejected and login fails with Rejected instead of
issuing a session token. -/
def c1User : User :=
  { id := 1, role := "dermatologist", username := "doc", email := "c1@x.y",
    password := hash_password "pw", is_verified := true, license := some "L1" }

/-- Pending approval record of the C1 scenario. -/
def c1Rec : VerificationRecord :=
  { dermatologistId := 1, status := "pending", license := some "L1",
    submittedAt := 0 }

/-- First admin action of the C1 scenario: reject with a comment. -/
def c1AfterReject : List VerificationRecord × User :=
  verify_dermatologist_service 10 99
    { status := "rejected", reviewComments := some "bad" } [c1Rec] c1User

/-- Second admin action of the C1 scenario: approve. -/
def c1AfterApprove : List VerificationRecord × User :=
  verify_dermatologist_service 20 99 { status := "approved" }
    c1AfterReject.1 c1AfterReject.2

theorem c1_counterexample :
    (find_verification c1AfterApprove.1 1).map VerificationRecord.status
      = some "rejected" ∧
    login 30 "pw" none c1AfterApprove.1 c1AfterApprove.2
      = .rejected "bad" := by
  decide

/-- C1 amended: for an email-verified dermatologist with the correct password
whose single ApprovalRecord is pending, an admin rejection followed by a later
admin action with status approved leaves the ApprovalRecord status at
rejected (the approved action matches only pending records and falls back to
setting the camelCase isVerified user flag), and a subsequent authenticate
call fails with Rejected carrying the rejection comments instead of issuing a
session token. -/
theorem c1_rereview_leaves_record_rejected :
    ∀ (u : User) (r : VerificationRecord) (pw comments : String)
      (t1 t2 t3 rev1 rev2 : Nat),
      u.role = "dermatologist" →
      u.is_verified = true →
      verify_password pw u.password = true →
      r.dermatologistId = u.id →
      r.status = "pending" →
      comments ≠ "" →
      ((find_verification
          (verify_dermatologist_service t2 rev2 { status := "approved" }
            (verify_dermatologist_service t1 rev1
              { status := "rejected", reviewComments := some comments } [r] u).1
            (verify_dermatologist_service t1 rev1
              { status := "rejected", reviewComments := some comments } [r] u).2).1
          u.id).map VerificationRecord.status = some "rejected") ∧
      (verify_dermatologist_service t2 rev2 { status := "approved" }
        (verify_dermatologist_service t1 rev1
          { status := "rejected", reviewComments := some comments } [r] u).1
        (verify_dermatologist_service t1 rev1
          { status := "rejected", reviewComments := some comments } [r] u).2).2.isVerified
        = some true ∧
      login t3 pw none
        (verify_dermatologist_service t2 rev2 { status := "approved" }
          (verify_dermatologist_service t1 rev1
            { status := "rejected", reviewComments := some comments } [r] u).1
          (verify_dermatologist_service t1 rev1
            { status := "rejected", reviewComments := some comments } [r] u).2).1
        (verify_dermatologist_service t2 rev2 { status := "approved" }
          (verify_dermatologist_service t1 rev1
            { status := "rejected", reviewComments := some comments } [r] u).1
          (verify_dermatologist_service t1 rev1
            { status := "rejected", reviewComments := some comments } [r] u).2).2
        = .rejected comments := by
  intro u r pw comments t1 t2 t3 rev1 rev2 hrole hver hpw hrdid hrstat hcom
  obtain ⟨i, ro, un, em, nm, pw0, iv, ivc, va, ia, su, vt, te, eo, ee, ea,
    el, ra, la, rl, ro2, re, li⟩ := u
  obtain ⟨rd, rs, rli, rc, rsub, rra, rrb⟩ := r
  simp only at hrole hver hrdid hrstat
  subst hrole; subst hver; subst hrdid; subst hrstat
  simp only at hpw
  refine ⟨?_, ?_, ?_⟩ <;>
    simp [verify_dermatologist_service, update_one_pending, truthyStr,
      find_verification, login, hpw, hcom]

theorem c1_rereview_witness :
    ((find_verification c1AfterApprove.1 c1User.id).map
        VerificationRecord.status = some "rejected") ∧
    c1AfterApprove.2.isVerified = some true ∧
    login 30 "pw" none c1AfterApprove.1 c1AfterApprove.2
      = .rejected "bad" := by
  have h := c1_rereview_leaves_record_rejected c1User c1Rec "pw" "bad"
    10 20 30 99 99 (by decide) (by decide) (by decide) (by decide) (by decide)
    (by decide)
  exact h

/-- C10: the admin review operation never changes the snake_case is_verified
field the login email-verification gate reads (first conjunct, every branch of
the service); consequently, after a direct admin approval an account that
never completed token or OTP verification still fails login with
EmailNotVerified (second conjunct). -/
theorem c10_admin_review_frame_is_verified :
    ∀ (now reviewerId : Nat) (data : ReviewData)
      (recs : List VerificationRecord) (u : User) (pw : String) (t : Nat),
      (verify_dermatologist_service now reviewerId data recs u).2.is_verified
        = u.is_verified ∧
      (u.is_verified = false → verify_password pw u.password = true →
        login t pw none
          (verify_dermatologist_service now reviewerId data recs u).1
          (verify_dermatologist_service now reviewerId data recs u).2
          = .emailNotVerified) := by
  intro now reviewerId data recs u pw t
  have hframe := verify_dermatologist_service_user_frame now reviewerId data recs u
  refine ⟨hframe.1, ?_⟩
  intro hver hpw
  have hp : verify_password pw
      ((verify_dermatologist_service now reviewerId data recs u).2.password)
      = true := by rw [hframe.2.1]; exact hpw
  have hv : (verify_dermatologist_service now reviewerId data recs u).2.is_verified
      = false := by rw [hframe.1]; exact hver
  simp [login, hp, hv]

/-- Unverified dermatologist for the C10 witness: approved directly by the
admin (no pending record exists) without ever completing email verification. -/
def c10User : User :=
  { id := 10, role := "dermatologist", username := "u10", email := "c10@x.y",
    password := hash_password "pw", is_verified := false,
    license := some "L10" }

theorem c10_admin_review_witness :
    (verify_dermatologist_service 5 99 { status := "approved" } [] c10User).2.is_verified
      = c10User.is_verified ∧
    login 6 "pw" none
      (verify_dermatologist_service 5 99 { status := "approved" } [] c10User).1
      (verify_dermatologist_service 5 99 { status := "approved" } [] c10User).2
      = .emailNotVerified := by
  have h := c10_admin_review_frame_is_verified 5 99 { status := "approved" }
    [] c10User "pw" 6
  exact ⟨h.1, h.2 (by decide) (by decide)⟩

/-- C2: for every valid signup request with a unique email and username (and,
for dermatologists, a fresh license), signup answers 201 with the role-specific
success message, the two role messages differ, and the outcome is entirely
independent of whether the fire-and-forget verification email delivery
succeeds. -/
theorem c2_signup_success_mail_independent :
    ∀ (now newId : Nat) (req : SignupRequest) (tok otp : String)
      (users : List User) (recs : List VerificationRecord)
      (mailOk mailOk2 : Bool),
      validate_signup req = true →
      users.any (fun u => u.email == str_lower req.email) = false →
      users.any (fun u => u.username == req.username) = false →
      (req.role == "dermatologist" &&
        users.any (fun u => u.license == req.license &&
                            u.role == "dermatologist")) = false →
      (signup now newId req tok otp mailOk users recs).1
        = .created 201 (signup_message req.role) ∧
      signup_message "dermatologist" ≠ signup_message "patient" ∧
      signup now newId req tok otp mailOk users recs
        = signup now newId req tok otp mailOk2 users recs := by
  intro now newId req tok otp users recs mailOk mailOk2 hval hem hun hlic
  refine ⟨?_, by decide, ?_⟩
  · unfold signup
    rw [hval, hem, hun, hlic]
    rfl
  · rfl

/-- Dermatologist signup request for the C2 witness. -/
def c2Req : SignupRequest :=
  { role := "dermatologist", username := "doc2", email := "c2@x.y",
    password := "pw", license := some "L2" }

theorem c2_signup_witness :
    (signup 0 2 c2Req "tk" "123456" false [] []).1
      = .created 201 (signup_message c2Req.role) ∧
    signup_message "dermatologist" ≠ signup_message "patient" ∧
    signup 0 2 c2Req "tk" "123456" false [] []
      = signup 0 2 c2Req "tk" "123456" true [] [] := by
  exact c2_signup_success_mail_independent 0 2 c2Req "tk" "123456" [] []
    false true (by decide) (by decide) (by decide) (by decide)

end FacialDerma
